import Mathlib

/-!
Shallow embedding of `drivers/cpufreq/ia64-acpi-cpufreq.c` (ACPI P-state
driver for ia64).  The C file's per-processor state lives in
`struct cpufreq_acpi_io` (an `acpi_processor_performance` table plus a
`resume` flag).  The hardware primitives `ia64_pal_set_pstate` /
`ia64_pal_get_pstate` are injected as a commit function and an optional
status value; the affinity pin (`set_cpus_allowed_ptr` followed by the
`smp_processor_id()` check) is injected as a boolean `pinOk`.  The calling
context's affinity mask is threaded explicitly so that its restoration at
the `migrate_end` label is visible in the result.  Kernel memory
allocation and the external framework calls
(`acpi_processor_register_performance`, `cpufreq_table_validate_and_show`)
are injected as success booleans.  Machine integers are modelled as `Nat`
with explicit `% 2^32` at the points where the C code narrows to `u32`.
-/

namespace AcpiCpufreq

/-- One entry of `acpi_processor_performance.states`
(`struct acpi_processor_px`), field order as in the C struct. -/
structure OperatingPoint where
  core_frequency : Nat
  power : Nat
  transition_latency : Nat
  bus_master_latency : Nat
  control : Nat
  status : Nat
  deriving Repr, DecidableEq

/-- Zero-initialized operating point, used to totalize C array indexing. -/
def defaultOP : OperatingPoint :=
  { core_frequency := 0, power := 0, transition_latency := 0
    bus_master_latency := 0, control := 0, status := 0 }

/-- The slice of `struct acpi_processor_performance` this driver reads:
`state` (currently-believed-active index), `states` (the P-state table;
`state_count` is `states.length`), and the two registers' address-space
classifiers. -/
structure AcpiProcessorPerformance where
  state : Nat
  states : List OperatingPoint
  control_register_space_id : Nat
  status_register_space_id : Nat
  deriving Repr, DecidableEq

/-- `struct cpufreq_acpi_io`: the per-processor registry entry.  The C
`unsigned int resume` is only ever 0 or 1, modelled as `Bool`. -/
structure cpufreq_acpi_io where
  acpi_data : AcpiProcessorPerformance
  resume : Bool
  deriving Repr, DecidableEq

def ENODEV : Int := 19
def EAGAIN : Int := 11
def ENOMEM : Int := 12
def EINVAL : Int := 22

/-- `ACPI_ADR_SPACE_FIXED_HARDWARE` (0x7F). -/
def ACPI_ADR_SPACE_FIXED_HARDWARE : Nat := 0x7F

/-- `CPUFREQ_TABLE_END` (`~1u` as a 32-bit value). -/
def CPUFREQ_TABLE_END : Nat := 4294967294

/-- 2^32, the modulus of the C `u32` narrowing casts. -/
def U32_MOD : Nat := 4294967296

/-- `extract_clock`: scan the state table in order for the entry whose
`status` equals the read-back value; return its `core_frequency`.  With no
match the C loop falls out with `i = state_count` and returns
`states[i-1].core_frequency`, i.e. the last entry (the table always has
`state_count >= 2` when this is reachable; the empty-table case is
totalized with `defaultOP`). -/
def extract_clock (data : cpufreq_acpi_io) (value : Nat) : Nat :=
  match data.acpi_data.states.find? (fun s => value == s.status) with
  | some s => s.core_frequency
  | none => ((data.acpi_data.states.getLast?).getD defaultOP).core_frequency

/-- Result of `processor_get_freq`: the returned frequency (C `unsigned
int`), the calling context's affinity mask at return, and the registry
entry as the function leaves it (the C function never writes to it). -/
structure GetFreqResult where
  ret : Nat
  mask : Nat
  data : cpufreq_acpi_io
  deriving Repr, DecidableEq

/-- `processor_get_freq`.  `read_pstate` is the injected
`processor_get_pstate` outcome (`some value` on success, `none` when the
PAL call fails); `pinOk` is the injected `smp_processor_id() == cpu`
check after `set_cpus_allowed_ptr(current, cpumask_of(cpu))`; `mask0` is
`current->cpus_allowed` on entry (`saved_mask`).  Every exit path goes
through `migrate_end`, which restores `saved_mask`. -/
def processor_get_freq (data : cpufreq_acpi_io) (cpu : Nat)
    (read_pstate : Option Nat) (pinOk : Bool) (mask0 : Nat) : GetFreqResult :=
  let saved_mask := mask0
  -- set_cpus_allowed_ptr(current, cpumask_of(cpu)); smp_processor_id() check:
  if pinOk = false then
    { ret := 0, mask := saved_mask, data := data }
  else
    match read_pstate with
    | none =>
      -- read failure: mask restored (twice in the C), ret forced to 0
      { ret := 0, mask := saved_mask, data := data }
    | some value =>
      { ret := (extract_clock data value * 1000) % U32_MOD
        mask := saved_mask, data := data }

/-- Result of `processor_set_freq`: the C return value, the registry entry
after the call, the control values committed to hardware (in order), and
the affinity mask at return. -/
structure SetFreqResult where
  retval : Int
  data : cpufreq_acpi_io
  commits : List Nat
  mask : Nat
  deriving Repr, DecidableEq

/-- Lines 167-188 of the C function: the actual transition.  `value` is
`(u32) data->acpi_data.states[state].control`; `processor_set_pstate` is
the injected `commit`.  On failure `retval = -ENODEV` and the table index
is left as-is; on success `data->acpi_data.state = state`. -/
def set_freq_commit (data : cpufreq_acpi_io) (state : Nat)
    (commit : Nat → Bool) (saved_mask : Nat) : SetFreqResult :=
  let value := (data.acpi_data.states.getD state defaultOP).control % U32_MOD
  if commit value = false then
    { retval := -ENODEV, data := data, commits := [value], mask := saved_mask }
  else
    { retval := 0
      data := { data with acpi_data := { data.acpi_data with state := state } }
      commits := [value], mask := saved_mask }

/-- `processor_set_freq`.  `commit` is the injected
`processor_set_pstate` (`true` = PAL call succeeded); `pinOk` and `mask0`
as in `processor_get_freq`.  If `state == data->acpi_data.state` and
`data->resume` is clear, return 0 without touching hardware; if `resume`
is set, clear it and fall through to the write.  Every exit goes through
`migrate_end`, restoring `saved_mask`. -/
def processor_set_freq (data : cpufreq_acpi_io) (cpu : Nat) (state : Nat)
    (commit : Nat → Bool) (pinOk : Bool) (mask0 : Nat) : SetFreqResult :=
  let saved_mask := mask0
  -- set_cpus_allowed_ptr(current, cpumask_of(policy->cpu)); migration check:
  if pinOk = false then
    { retval := -EAGAIN, data := data, commits := [], mask := saved_mask }
  else if state = data.acpi_data.state then
    if data.resume then
      set_freq_commit { data with resume := false } state commit saved_mask
    else
      { retval := 0, data := data, commits := [], mask := saved_mask }
  else
    set_freq_commit data state commit saved_mask

/-- `acpi_cpufreq_get`: look up `acpi_io_data[cpu]` and delegate.  A
missing entry (NULL pointer) is modelled as `none`. -/
def acpi_cpufreq_get (acpi_io_data : Nat → Option cpufreq_acpi_io)
    (cpu : Nat) (read_pstate : Option Nat) (pinOk : Bool) (mask0 : Nat) :
    Option GetFreqResult :=
  (acpi_io_data cpu).map (fun data =>
    processor_get_freq data cpu read_pstate pinOk mask0)

/-- `acpi_cpufreq_target`: look up `acpi_io_data[policy->cpu]` and
delegate to `processor_set_freq` with the requested table index. -/
def acpi_cpufreq_target (acpi_io_data : Nat → Option cpufreq_acpi_io)
    (cpu : Nat) (index : Nat) (commit : Nat → Bool) (pinOk : Bool)
    (mask0 : Nat) : Option SetFreqResult :=
  (acpi_io_data cpu).map (fun data =>
    processor_set_freq data cpu index commit pinOk mask0)

/-- Result of `acpi_cpufreq_cpu_init`: the C return value, the registry
slot `acpi_io_data[cpu]` after the call, the exported frequency table
(entries `core_frequency * 1000` as `u32`, terminated by
`CPUFREQ_TABLE_END`), and `policy->cpuinfo.transition_latency`. -/
structure InitResult where
  result : Int
  entry : Option cpufreq_acpi_io
  freq_table : Option (List Nat)
  transitionLatency : Nat
  deriving Repr, DecidableEq

/-- `acpi_cpufreq_cpu_init`.  `perf` is the table filled in by
`acpi_processor_register_performance` (assumed to succeed; its failure
path frees the entry like the others).  `dataAllocOk` / `tableAllocOk`
inject the two kernel allocations, `validateOk` injects
`cpufreq_table_validate_and_show`.  Every error path falls through to
`err_free`, which sets `acpi_io_data[cpu] = NULL`; on success the slot
holds the entry with `resume = 1`. -/
def acpi_cpufreq_cpu_init (perf : AcpiProcessorPerformance)
    (dataAllocOk tableAllocOk validateOk : Bool) : InitResult :=
  if dataAllocOk = false then
    { result := -ENOMEM, entry := none, freq_table := none
      transitionLatency := 0 }
  else if perf.states.length ≤ 1 then
    -- "No P-States": capability check fails
    { result := -ENODEV, entry := none, freq_table := none
      transitionLatency := 0 }
  else if perf.control_register_space_id ≠ ACPI_ADR_SPACE_FIXED_HARDWARE ∨
      perf.status_register_space_id ≠ ACPI_ADR_SPACE_FIXED_HARDWARE then
    -- "Unsupported address space"
    { result := -ENODEV, entry := none, freq_table := none
      transitionLatency := 0 }
  else if tableAllocOk = false then
    { result := -ENOMEM, entry := none, freq_table := none
      transitionLatency := 0 }
  else
    let latency := perf.states.foldl
      (fun acc s => max acc (s.transition_latency * 1000)) 0
    let table := perf.states.map (fun s => (s.core_frequency * 1000) % U32_MOD)
      ++ [CPUFREQ_TABLE_END]
    if validateOk = false then
      { result := -EINVAL, entry := none, freq_table := none
        transitionLatency := latency }
    else
      { result := 0
        entry := some { acpi_data := perf, resume := true }
        freq_table := some table
        transitionLatency := latency }

/-! Sample data for the concrete witnesses: the 4-entry table from the
spec's concrete scenario, with status codes 0x10/0x20/0x30/0x40. -/

def opA : OperatingPoint :=
  { core_frequency := 3000, power := 90, transition_latency := 10
    bus_master_latency := 10, control := 1, status := 0x10 }

def opB : OperatingPoint :=
  { core_frequency := 2600, power := 75, transition_latency := 10
    bus_master_latency := 10, control := 2, status := 0x20 }

def opC : OperatingPoint :=
  { core_frequency := 2200, power := 60, transition_latency := 10
    bus_master_latency := 10, control := 3, status := 0x30 }

def opD : OperatingPoint :=
  { core_frequency := 1800, power := 45, transition_latency := 10
    bus_master_latency := 10, control := 4, status := 0x40 }

def samplePerf : AcpiProcessorPerformance :=
  { state := 0, states := [opA, opB, opC, opD]
    control_register_space_id := ACPI_ADR_SPACE_FIXED_HARDWARE
    status_register_space_id := ACPI_ADR_SPACE_FIXED_HARDWARE }

/-- A registered entry with the resume flag already cleared. -/
def sampleData : cpufreq_acpi_io :=
  { acpi_data := samplePerf, resume := false }

/-- A registered entry as `acpi_cpufreq_cpu_init` leaves it (resume set). -/
def resumeData : cpufreq_acpi_io :=
  { acpi_data := samplePerf, resume := true }

def sampleRegistry : Nat → Option cpufreq_acpi_io :=
  fun c => if c = 0 then some sampleData else none

def commitAlways : Nat → Bool := fun _ => true

def commitNever : Nat → Bool := fun _ => false

/-! Helper lemmas: branch characterizations of `processor_set_freq` and
`set_freq_commit`, and first-match behavior of the `extract_clock` scan. -/

/-- `List.find?` returns the first entry whose status matches. -/
theorem find_first_match (l : List OperatingPoint) (value : Nat) :
    ∀ i, i < l.length → (l.getD i defaultOP).status = value →
      (∀ j, j < i → (l.getD j defaultOP).status ≠ value) →
      l.find? (fun s => value == s.status) = some (l.getD i defaultOP) := by
  induction l with
  | nil => intro i hi _ _; simp at hi
  | cons a t ih =>
    intro i hi hstat hfirst
    cases i with
    | zero =>
      simp only [List.getD_cons_zero] at hstat ⊢
      rw [List.find?_cons_of_pos]
      simp [hstat]
    | succ n =>
      have ha : a.status ≠ value := by
        simpa using hfirst 0 (Nat.succ_pos n)
      simp only [List.getD_cons_succ] at hstat ⊢
      rw [List.find?_cons_of_neg _ (by simp [Ne.symm ha])]
      exact ih n (Nat.lt_of_succ_lt_succ hi) hstat
        (fun j hj => by simpa using hfirst (j + 1) (Nat.succ_lt_succ hj))

/-- A successful commit advances the table index and reports 0. -/
theorem set_freq_commit_success (data : cpufreq_acpi_io) (state : Nat)
    (commit : Nat → Bool) (m : Nat)
    (hctl : (data.acpi_data.states.getD state defaultOP).control < U32_MOD)
    (hcommit : commit ((data.acpi_data.states.getD state defaultOP).control)
      = true) :
    set_freq_commit data state commit m =
      { retval := 0
        data := { data with acpi_data := { data.acpi_data with state := state } }
        commits := [(data.acpi_data.states.getD state defaultOP).control]
        mask := m } := by
  simp only [set_freq_commit]
  rw [Nat.mod_eq_of_lt hctl, hcommit]
  simp

/-- A failed commit leaves the entry as given and reports -ENODEV. -/
theorem set_freq_commit_fail (data : cpufreq_acpi_io) (state : Nat)
    (commit : Nat → Bool) (m : Nat)
    (hctl : (data.acpi_data.states.getD state defaultOP).control < U32_MOD)
    (hfail : commit ((data.acpi_data.states.getD state defaultOP).control)
      = false) :
    set_freq_commit data state commit m =
      { retval := -ENODEV, data := data
        commits := [(data.acpi_data.states.getD state defaultOP).control]
        mask := m } := by
  simp only [set_freq_commit]
  rw [Nat.mod_eq_of_lt hctl, hfail]
  simp

/-- Fast path: same index, resume flag clear. -/
theorem processor_set_freq_fast (data : cpufreq_acpi_io) (cpu state : Nat)
    (commit : Nat → Bool) (mask0 : Nat)
    (heq : state = data.acpi_data.state) (hres : data.resume = false) :
    processor_set_freq data cpu state commit true mask0 =
      { retval := 0, data := data, commits := [], mask := mask0 } := by
  simp [processor_set_freq, heq, hres]

/-- Same index with the resume flag set: clear it and fall through. -/
theorem processor_set_freq_resume (data : cpufreq_acpi_io) (cpu state : Nat)
    (commit : Nat → Bool) (mask0 : Nat)
    (heq : state = data.acpi_data.state) (hres : data.resume = true) :
    processor_set_freq data cpu state commit true mask0 =
      set_freq_commit { data with resume := false } state commit mask0 := by
  simp [processor_set_freq, heq, hres]

/-- Different index: go straight to the commit. -/
theorem processor_set_freq_trans (data : cpufreq_acpi_io) (cpu state : Nat)
    (commit : Nat → Bool) (mask0 : Nat)
    (hne : state ≠ data.acpi_data.state) :
    processor_set_freq data cpu state commit true mask0 =
      set_freq_commit data state commit mask0 := by
  simp [processor_set_freq, hne]

/-- Claim C1: for every processor with a registered StateTable and every
valid target index that differs from the current index, if the affinity
pin succeeds and the hardware commit of the target state's control value
succeeds, then `acpi_cpufreq_target` sets the current index to the target
index and returns success (0), having committed exactly that control
value. -/
theorem requestTransition_success (acpi_io_data : Nat → Option cpufreq_acpi_io)
    (cpu target : Nat) (data : cpufreq_acpi_io) (commit : Nat → Bool)
    (mask0 : Nat)
    (hreg : acpi_io_data cpu = some data)
    (hvalid : target < data.acpi_data.states.length)
    (hne : target ≠ data.acpi_data.state)
    (hctl : (data.acpi_data.states.getD target defaultOP).control < U32_MOD)
    (hcommit : commit ((data.acpi_data.states.getD target defaultOP).control)
      = true) :
    ∃ r, acpi_cpufreq_target acpi_io_data cpu target commit true mask0 = some r
      ∧ r.retval = 0 ∧ r.data.acpi_data.state = target ∧
      r.commits = [(data.acpi_data.states.getD target defaultOP).control] := by
  refine ⟨processor_set_freq data cpu target commit true mask0, ?_, ?_⟩
  · simp [acpi_cpufreq_target, hreg]
  · rw [processor_set_freq_trans data cpu target commit mask0 hne,
      set_freq_commit_success data target commit mask0 hctl hcommit]
    exact ⟨rfl, rfl, rfl⟩

/-- Concrete instance of C1: transition the sample table from index 0 to
index 2 with an always-succeeding commit. -/
theorem requestTransition_success_witness :
    ∃ r, acpi_cpufreq_target sampleRegistry 0 2 commitAlways true 5 = some r
      ∧ r.retval = 0 ∧ r.data.acpi_data.state = 2 ∧
      r.commits = [(sampleData.acpi_data.states.getD 2 defaultOP).control] :=
  requestTransition_success sampleRegistry 0 2 sampleData commitAlways 5
    (by decide) (by decide) (by decide) (by decide) rfl

/-- Claim C2: if the hardware commit is attempted (the fast path is not
taken: the target differs from the current index, or the resume flag is
set) and fails, `processor_set_freq` reports a transition failure
(-ENODEV), the current index is unchanged, and a resume flag that was
false before the call is still false after it. -/
theorem requestTransition_rollback (data : cpufreq_acpi_io) (cpu state : Nat)
    (commit : Nat → Bool) (mask0 : Nat)
    (hpath : state ≠ data.acpi_data.state ∨ data.resume = true)
    (hctl : (data.acpi_data.states.getD state defaultOP).control < U32_MOD)
    (hfail : commit ((data.acpi_data.states.getD state defaultOP).control)
      = false) :
    (processor_set_freq data cpu state commit true mask0).retval = -ENODEV ∧
    (processor_set_freq data cpu state commit true mask0).data.acpi_data.state
      = data.acpi_data.state ∧
    (data.resume = false →
      (processor_set_freq data cpu state commit true mask0).data.resume
        = false) := by
  by_cases h : state = data.acpi_data.state
  · have hres : data.resume = true := hpath.resolve_left (by simp [h])
    rw [processor_set_freq_resume data cpu state commit mask0 h hres,
      set_freq_commit_fail { data with resume := false } state commit mask0
        hctl hfail]
    exact ⟨rfl, rfl, fun hf => by simp⟩
  · rw [processor_set_freq_trans data cpu state commit mask0 h,
      set_freq_commit_fail data state commit mask0 hctl hfail]
    exact ⟨rfl, rfl, fun hf => hf⟩

/-- Concrete instance of C2: a failing commit on a transition from index 0
to index 1 leaves the index at 0 and the cleared resume flag cleared. -/
theorem requestTransition_rollback_witness :
    (processor_set_freq sampleData 0 1 commitNever true 5).retval = -ENODEV ∧
    (processor_set_freq sampleData 0 1 commitNever true 5).data.acpi_data.state
      = sampleData.acpi_data.state ∧
    (processor_set_freq sampleData 0 1 commitNever true 5).data.resume
      = false := by
  have h := requestTransition_rollback sampleData 0 1 commitNever 5
    (Or.inl (by decide)) (by decide) rfl
  exact ⟨h.1, h.2.1, h.2.2 rfl⟩

/-- Claim C3: with the resume flag clear, a request whose target equals
the current index is a success that commits nothing and changes nothing;
and after any successful request for index `t` (with the flag clear), an
immediately repeated request for `t` is such a no-op. -/
theorem requestTransition_idempotent (data : cpufreq_acpi_io) (cpu t : Nat)
    (c1 c2 : Nat → Bool) (m0 m1 : Nat) (hres : data.resume = false) :
    (t = data.acpi_data.state →
      (processor_set_freq data cpu t c1 true m0).retval = 0 ∧
      (processor_set_freq data cpu t c1 true m0).commits = [] ∧
      (processor_set_freq data cpu t c1 true m0).data = data) ∧
    ((processor_set_freq data cpu t c1 true m0).retval = 0 →
      (processor_set_freq (processor_set_freq data cpu t c1 true m0).data
          cpu t c2 true m1).retval = 0 ∧
      (processor_set_freq (processor_set_freq data cpu t c1 true m0).data
          cpu t c2 true m1).commits = [] ∧
      (processor_set_freq (processor_set_freq data cpu t c1 true m0).data
          cpu t c2 true m1).data
        = (processor_set_freq data cpu t c1 true m0).data) := by
  constructor
  · intro heq
    rw [processor_set_freq_fast data cpu t c1 m0 heq hres]
    exact ⟨rfl, rfl, rfl⟩
  · intro hsucc
    by_cases h : t = data.acpi_data.state
    · rw [processor_set_freq_fast data cpu t c1 m0 h hres]
      rw [processor_set_freq_fast data cpu t c2 m1 h hres]
      exact ⟨rfl, rfl, rfl⟩
    · rw [processor_set_freq_trans data cpu t c1 m0 h] at hsucc ⊢
      by_cases hc :
        c1 ((data.acpi_data.states.getD t defaultOP).control % U32_MOD) = false
      · exfalso
        simp only [set_freq_commit, hc, if_pos] at hsucc
        exact absurd hsucc (by decide)
      · have hc2 :
            c1 ((data.acpi_data.states.getD t defaultOP).control % U32_MOD)
              = true := by
          cases hb : c1 ((data.acpi_data.states.getD t defaultOP).control
            % U32_MOD) with
          | false => exact absurd hb hc
          | true => rfl
        have hd : (set_freq_commit data t c1 m0).data =
            { data with acpi_data := { data.acpi_data with state := t } } := by
          simp only [set_freq_commit, hc2]
          simp
        rw [hd]
        rw [processor_set_freq_fast
          { data with acpi_data := { data.acpi_data with state := t } }
          cpu t c2 m1 rfl hres]
        exact ⟨rfl, rfl, rfl⟩

/-- Concrete instance of C3: a same-index request on the sample table is a
no-op, and a repeated request for index 2 after a successful transition is
a no-op. -/
theorem requestTransition_idempotent_witness :
    ((processor_set_freq sampleData 0 0 commitAlways true 5).retval = 0 ∧
     (processor_set_freq sampleData 0 0 commitAlways true 5).commits = [] ∧
     (processor_set_freq sampleData 0 0 commitAlways true 5).data
       = sampleData) ∧
    ((processor_set_freq
        (processor_set_freq sampleData 0 2 commitAlways true 5).data
        0 2 commitAlways true 6).retval = 0 ∧
     (processor_set_freq
        (processor_set_freq sampleData 0 2 commitAlways true 5).data
        0 2 commitAlways true 6).commits = [] ∧
     (processor_set_freq
        (processor_set_freq sampleData 0 2 commitAlways true 5).data
        0 2 commitAlways true 6).data
       = (processor_set_freq sampleData 0 2 commitAlways true 5).data) :=
  ⟨(requestTransition_idempotent sampleData 0 0 commitAlways commitAlways 5 6
      rfl).1 rfl,
   (requestTransition_idempotent sampleData 0 2 commitAlways commitAlways 5 6
      rfl).2 (by decide)⟩

/-- Both commit outcomes leave the restored mask. -/
theorem set_freq_commit_mask (data : cpufreq_acpi_io) (state : Nat)
    (commit : Nat → Bool) (m : Nat) :
    (set_freq_commit data state commit m).mask = m := by
  simp only [set_freq_commit]
  split <;> rfl

/-- Both commit outcomes leave the resume flag of their argument. -/
theorem set_freq_commit_resume (data : cpufreq_acpi_io) (state : Nat)
    (commit : Nat → Bool) (m : Nat) :
    (set_freq_commit data state commit m).data.resume = data.resume := by
  simp only [set_freq_commit]
  split <;> rfl

/-- With the pin in place and a successful status read, the query returns
the scanned frequency times 1000 (as u32). -/
theorem processor_get_freq_read (data : cpufreq_acpi_io)
    (cpu value mask0 : Nat) :
    processor_get_freq data cpu (some value) true mask0 =
      { ret := (extract_clock data value * 1000) % U32_MOD
        mask := mask0, data := data } := by
  simp [processor_get_freq]

/-- A failed pin or a failed status read yields the zeroed result. -/
theorem processor_get_freq_fail_eq (data : cpufreq_acpi_io) (cpu : Nat)
    (read_pstate : Option Nat) (pinOk : Bool) (mask0 : Nat)
    (h : read_pstate = none ∨ pinOk = false) :
    processor_get_freq data cpu read_pstate pinOk mask0 =
      { ret := 0, mask := mask0, data := data } := by
  rcases h with h | h
  · cases pinOk <;> simp [processor_get_freq, h]
  · simp [processor_get_freq, h]

/-- Claim C4: after a successful `acpi_cpufreq_cpu_init` the entry's
resume flag is true, so the very first `processor_set_freq` whose target
equals the current index does commit that state's control value to
hardware, clears the flag, and leaves the current index at the target. -/
theorem post_resume_first_target (perf : AcpiProcessorPerformance)
    (cpu : Nat) (commit : Nat → Bool) (mask0 : Nat)
    (hcnt : 2 ≤ perf.states.length)
    (hc : perf.control_register_space_id = ACPI_ADR_SPACE_FIXED_HARDWARE)
    (hs : perf.status_register_space_id = ACPI_ADR_SPACE_FIXED_HARDWARE)
    (hctl : (perf.states.getD perf.state defaultOP).control < U32_MOD) :
    ∃ d, (acpi_cpufreq_cpu_init perf true true true).entry = some d ∧
      d.resume = true ∧ d.acpi_data.state = perf.state ∧
      (processor_set_freq d cpu perf.state commit true mask0).commits
        = [(perf.states.getD perf.state defaultOP).control] ∧
      (processor_set_freq d cpu perf.state commit true mask0).data.resume
        = false ∧
      (processor_set_freq d cpu perf.state commit
        true mask0).data.acpi_data.state = perf.state := by
  have h1 : ¬perf.states.length ≤ 1 := by omega
  have hentry : (acpi_cpufreq_cpu_init perf true true true).entry =
      some { acpi_data := perf, resume := true } := by
    simp [acpi_cpufreq_cpu_init, h1, hc, hs]
  refine ⟨{ acpi_data := perf, resume := true }, hentry, rfl, rfl, ?_⟩
  rw [processor_set_freq_resume { acpi_data := perf, resume := true } cpu
    perf.state commit mask0 rfl rfl]
  cases hcm : commit ((perf.states.getD perf.state defaultOP).control) with
  | false =>
    rw [set_freq_commit_fail { acpi_data := perf, resume := false } perf.state
      commit mask0 hctl hcm]
    exact ⟨rfl, rfl, rfl⟩
  | true =>
    rw [set_freq_commit_success { acpi_data := perf, resume := false }
      perf.state commit mask0 hctl hcm]
    exact ⟨rfl, rfl, rfl⟩

/-- Concrete instance of C4: the sample table right after init, first
request targeting the initial index 0. -/
theorem post_resume_first_target_witness :
    ∃ d, (acpi_cpufreq_cpu_init samplePerf true true true).entry = some d ∧
      d.resume = true ∧ d.acpi_data.state = samplePerf.state ∧
      (processor_set_freq d 0 samplePerf.state commitAlways true 5).commits
        = [(samplePerf.states.getD samplePerf.state defaultOP).control] ∧
      (processor_set_freq d 0 samplePerf.state commitAlways true 5).data.resume
        = false ∧
      (processor_set_freq d 0 samplePerf.state commitAlways
        true 5).data.acpi_data.state = samplePerf.state :=
  post_resume_first_target samplePerf 0 commitAlways 5 (by decide) rfl rfl
    (by decide)

/-- Claim C5: with the pin in place and a successful status read, the
query returns the first table entry whose status matches, scaled by 1000;
with no match it returns the last entry's frequency scaled by 1000. -/
theorem queryCurrentFrequency_lookup (data : cpufreq_acpi_io)
    (cpu value mask0 : Nat) :
    (∀ i, i < data.acpi_data.states.length →
      (data.acpi_data.states.getD i defaultOP).status = value →
      (∀ j, j < i → (data.acpi_data.states.getD j defaultOP).status ≠ value) →
      (data.acpi_data.states.getD i defaultOP).core_frequency * 1000
        < U32_MOD →
      (processor_get_freq data cpu (some value) true mask0).ret =
        (data.acpi_data.states.getD i defaultOP).core_frequency * 1000) ∧
    ((∀ s ∈ data.acpi_data.states, s.status ≠ value) →
      ∀ hne : data.acpi_data.states ≠ [],
      (data.acpi_data.states.getLast hne).core_frequency * 1000 < U32_MOD →
      (processor_get_freq data cpu (some value) true mask0).ret =
        (data.acpi_data.states.getLast hne).core_frequency * 1000) := by
  constructor
  · intro i hi hstat hfirst hsmall
    have hfind := find_first_match data.acpi_data.states value i hi hstat
      hfirst
    rw [processor_get_freq_read]
    simp only [extract_clock, hfind]
    exact Nat.mod_eq_of_lt hsmall
  · intro hnomatch hne hsmall
    have hfind : data.acpi_data.states.find? (fun s => value == s.status)
        = none := by
      apply List.find?_eq_none.mpr
      intro x hx
      simp only [beq_iff_eq]
      exact fun heq => hnomatch x hx heq.symm
    rw [processor_get_freq_read]
    simp only [extract_clock, hfind,
      List.getLast?_eq_getLast_of_ne_nil hne, Option.getD_some]
    exact Nat.mod_eq_of_lt hsmall

/-- The sample table is nonempty. -/
theorem sampleStates_ne_nil : sampleData.acpi_data.states ≠ [] := by decide

/-- Concrete instance of C5: status 0x20 matches the second sample entry
(2600 MHz-scale units, 2600000 after scaling); status 0x99 matches none
and falls back to the last entry (1800000 after scaling). -/
theorem queryCurrentFrequency_lookup_witness :
    (processor_get_freq sampleData 0 (some 0x20) true 5).ret =
      (sampleData.acpi_data.states.getD 1 defaultOP).core_frequency * 1000 ∧
    (processor_get_freq sampleData 0 (some 0x99) true 5).ret =
      (sampleData.acpi_data.states.getLast sampleStates_ne_nil).core_frequency
        * 1000 :=
  ⟨(queryCurrentFrequency_lookup sampleData 0 0x20 5).1 1 (by decide)
      (by decide) (by decide) (by decide),
   (queryCurrentFrequency_lookup sampleData 0 0x99 5).2 (by decide)
      sampleStates_ne_nil (by decide)⟩

/-- Claim C6: a failed status read or a failed affinity pin makes the
query return 0, and the registry entry is unchanged. -/
theorem queryCurrentFrequency_fail (data : cpufreq_acpi_io)
    (cpu mask0 : Nat) (read_pstate : Option Nat) (pinOk : Bool)
    (h : read_pstate = none ∨ pinOk = false) :
    (processor_get_freq data cpu read_pstate pinOk mask0).ret = 0 ∧
    (processor_get_freq data cpu read_pstate pinOk mask0).data = data := by
  rw [processor_get_freq_fail_eq data cpu read_pstate pinOk mask0 h]
  exact ⟨rfl, rfl⟩

/-- Concrete instance of C6: a failed read on cpu 0. -/
theorem queryCurrentFrequency_fail_witness :
    (processor_get_freq sampleData 0 none true 5).ret = 0 ∧
    (processor_get_freq sampleData 0 none true 5).data = sampleData :=
  queryCurrentFrequency_fail sampleData 0 5 none true (Or.inl rfl)

/-- Claim C7: initialization with fewer than 2 operating points fails with
-ENODEV ("No P-States") and leaves the registry slot empty. -/
theorem activate_insufficient_states (perf : AcpiProcessorPerformance)
    (tableAllocOk validateOk : Bool)
    (h : perf.states.length < 2) :
    (acpi_cpufreq_cpu_init perf true tableAllocOk validateOk).result
      = -ENODEV ∧
    (acpi_cpufreq_cpu_init perf true tableAllocOk validateOk).entry
      = none := by
  have h1 : perf.states.length ≤ 1 := by omega
  refine ⟨?_, ?_⟩ <;> simp [acpi_cpufreq_cpu_init, h1]

/-- Concrete instance of C7: a one-entry table is rejected. -/
theorem activate_insufficient_states_witness :
    (acpi_cpufreq_cpu_init
      { state := 0, states := [opA]
        control_register_space_id := ACPI_ADR_SPACE_FIXED_HARDWARE
        status_register_space_id := ACPI_ADR_SPACE_FIXED_HARDWARE }
      true true true).result = -ENODEV ∧
    (acpi_cpufreq_cpu_init
      { state := 0, states := [opA]
        control_register_space_id := ACPI_ADR_SPACE_FIXED_HARDWARE
        status_register_space_id := ACPI_ADR_SPACE_FIXED_HARDWARE }
      true true true).entry = none :=
  activate_insufficient_states
    { state := 0, states := [opA]
      control_register_space_id := ACPI_ADR_SPACE_FIXED_HARDWARE
      status_register_space_id := ACPI_ADR_SPACE_FIXED_HARDWARE }
    true true (by decide)

/-- Claim C8: initialization fails with -ENODEV ("Unsupported address
space") and leaves the registry slot empty when either register's address
space is not `ACPI_ADR_SPACE_FIXED_HARDWARE`. -/
theorem activate_unsupported_space (perf : AcpiProcessorPerformance)
    (tableAllocOk validateOk : Bool)
    (h : perf.control_register_space_id ≠ ACPI_ADR_SPACE_FIXED_HARDWARE ∨
      perf.status_register_space_id ≠ ACPI_ADR_SPACE_FIXED_HARDWARE) :
    (acpi_cpufreq_cpu_init perf true tableAllocOk validateOk).result
      = -ENODEV ∧
    (acpi_cpufreq_cpu_init perf true tableAllocOk validateOk).entry
      = none := by
  by_cases h1 : perf.states.length ≤ 1
  · refine ⟨?_, ?_⟩ <;> simp [acpi_cpufreq_cpu_init, h1]
  · refine ⟨?_, ?_⟩ <;> simp [acpi_cpufreq_cpu_init, h1, h]

/-- Concrete instance of C8: a control register in address space 1
(system I/O) is rejected. -/
theorem activate_unsupported_space_witness :
    (acpi_cpufreq_cpu_init
      { samplePerf with control_register_space_id := 1 }
      true true true).result = -ENODEV ∧
    (acpi_cpufreq_cpu_init
      { samplePerf with control_register_space_id := 1 }
      true true true).entry = none :=
  activate_unsupported_space
    { samplePerf with control_register_space_id := 1 }
    true true (Or.inl (by decide))

/-- Claim C9: on every exit path of `processor_set_freq` and
`processor_get_freq` — success, commit or read failure, or migration-race
abort — the affinity mask at return equals the mask captured on entry. -/
theorem affinity_mask_restored (data : cpufreq_acpi_io) (cpu state : Nat)
    (commit : Nat → Bool) (read_pstate : Option Nat) (pinOk pinOk2 : Bool)
    (mask0 mask1 : Nat) :
    (processor_set_freq data cpu state commit pinOk mask0).mask = mask0 ∧
    (processor_get_freq data cpu read_pstate pinOk2 mask1).mask = mask1 := by
  constructor
  · cases pinOk
    · rfl
    · by_cases h : state = data.acpi_data.state
      · cases hres : data.resume
        · rw [processor_set_freq_fast data cpu state commit mask0 h hres]
        · rw [processor_set_freq_resume data cpu state commit mask0 h hres,
            set_freq_commit_mask]
      · rw [processor_set_freq_trans data cpu state commit mask0 h,
          set_freq_commit_mask]
  · cases pinOk2
    · rfl
    · cases read_pstate
      · rfl
      · rfl

/-- Claim C10: the resume flag is only cleared by a request whose target
equals the current index while the flag is set; a request to a different
index never writes the flag, so right after initialization one successful
transition to a different index leaves the flag set. -/
theorem resume_clear_only_on_same_index (data : cpufreq_acpi_io)
    (cpu state : Nat) (commit : Nat → Bool) (pinOk : Bool) (mask0 : Nat)
    (perf : AcpiProcessorPerformance) (cpu2 t : Nat) (commit2 : Nat → Bool)
    (mask2 : Nat) :
    (state ≠ data.acpi_data.state →
      (processor_set_freq data cpu state commit pinOk mask0).data.resume
        = data.resume) ∧
    (data.resume = true →
      (processor_set_freq data cpu state commit pinOk mask0).data.resume
        = false →
      state = data.acpi_data.state) ∧
    (∀ d, (acpi_cpufreq_cpu_init perf true true true).entry = some d →
      t ≠ d.acpi_data.state →
      (processor_set_freq d cpu2 t commit2 true mask2).retval = 0 →
      (processor_set_freq d cpu2 t commit2 true mask2).data.resume
        = true) := by
  refine ⟨?_, ?_, ?_⟩
  · intro hne
    cases pinOk
    · rfl
    · rw [processor_set_freq_trans data cpu state commit mask0 hne,
        set_freq_commit_resume]
  · intro hres hcl
    by_contra hne
    cases pinOk
    · simp [processor_set_freq, hres] at hcl
    · rw [processor_set_freq_trans data cpu state commit mask0 hne,
        set_freq_commit_resume, hres] at hcl
      exact Bool.noConfusion hcl
  · intro d hentry hne hret
    have hd : d = { acpi_data := perf, resume := true } := by
      by_cases h1 : perf.states.length ≤ 1
      · exfalso
        have hnone : (acpi_cpufreq_cpu_init perf true true true).entry
            = none := by
          simp [acpi_cpufreq_cpu_init, h1]
        rw [hnone] at hentry
        exact Option.noConfusion hentry
      · by_cases h2 :
            perf.control_register_space_id ≠ ACPI_ADR_SPACE_FIXED_HARDWARE ∨
            perf.status_register_space_id ≠ ACPI_ADR_SPACE_FIXED_HARDWARE
        · exfalso
          have hnone : (acpi_cpufreq_cpu_init perf true true true).entry
              = none := by
            simp [acpi_cpufreq_cpu_init, h1, h2]
          rw [hnone] at hentry
          exact Option.noConfusion hentry
        · have hsome : (acpi_cpufreq_cpu_init perf true true true).entry
              = some { acpi_data := perf, resume := true } := by
            simp [acpi_cpufreq_cpu_init, h1, h2]
          rw [hsome] at hentry
          exact (Option.some.inj hentry).symm
    subst hd
    rw [processor_set_freq_trans { acpi_data := perf, resume := true } cpu2
      t commit2 mask2 hne, set_freq_commit_resume]

/-- Concrete instance of C10: a failed transition to a different index
preserves the flag; clearing it at index 0 implies 0 was current; one
successful transition from the post-init entry to index 2 leaves the flag
set. -/
theorem resume_clear_only_on_same_index_witness :
    (processor_set_freq resumeData 0 1 commitNever true 5).data.resume
      = resumeData.resume ∧
    (0 = resumeData.acpi_data.state) ∧
    (processor_set_freq resumeData 0 2 commitAlways true 5).data.resume
      = true :=
  ⟨(resume_clear_only_on_same_index resumeData 0 1 commitNever true 5
      samplePerf 0 2 commitAlways 5).1 (by decide),
   (resume_clear_only_on_same_index resumeData 0 0 commitNever true 5
      samplePerf 0 2 commitAlways 5).2.1 rfl (by decide),
   (resume_clear_only_on_same_index resumeData 0 0 commitNever true 5
      samplePerf 0 2 commitAlways 5).2.2 resumeData (by decide) (by decide)
      (by decide)⟩

end AcpiCpufreq
